import Mathlib

/-!
Verification of the realtime voice session pipeline of `src/components/LiveChat.tsx`
(with persona data from `constants.tsx` / `types.ts`).

The development is a shallow embedding of the component's logic:

* the PCM codec helpers `createBlob` and `decodePCMAudioData` become pure
  functions on lists of rationals and integers (every arithmetic step the
  source performs on IEEE doubles here — multiplying a float32 by the power of
  two 32768, JavaScript `ToInt16` coercion on Int16Array stores, reinterpreting
  an Int16 buffer as bytes, dividing an int16 by 32768 — is exact in binary
  floating point, so rational arithmetic models it without loss);
* the React component's refs and state become an explicit `ControllerState`
  record; `cleanup`, the `onmessage`/`onerror`/`onclose` callbacks and the
  synchronous prefix of `handleConnect` become state-transition functions, with
  teardown side effects recorded as an ordered trace;
* the base64 transport layer (`encode`/`btoa`, `decode`/`atob`) is a bijection
  between byte lists and their base64 text and is elided: audio payloads are
  carried as the decoded byte lists.
-/

namespace LiveChat

/-! ### Audio codec: `createBlob` (lines 40-50) and `decodePCMAudioData` (lines 26-38) -/

/-- JavaScript number-to-integer conversion (`ToIntegerOrInfinity`):
truncation toward zero, modelled on rationals. -/
def jsTrunc (q : ℚ) : ℤ :=
  if 0 ≤ q then ⌊q⌋ else ⌈q⌉

/-- JavaScript `ToInt16`, the coercion applied when a number is stored into an
`Int16Array`: reduce modulo 2^16, then reinterpret as a signed 16-bit value.
Note: no clamping — out-of-range values wrap. -/
def toInt16 (n : ℤ) : ℤ :=
  if n % 65536 < 32768 then n % 65536 else n % 65536 - 65536

/-- The `Int16Array` built inside `createBlob` (lines 42-45):
`int16[i] = data[i] * 32768`.  The float32 input samples are the rationals. -/
def createBlobInt16 (data : List ℚ) : List ℤ :=
  data.map fun x => toInt16 (jsTrunc (x * 32768))

/-- Byte view `new Uint8Array(int16.buffer)` (line 47): the little-endian bytes of an
Int16 buffer.  Each signed 16-bit value `v` contributes its unsigned
representation `v % 65536` as low byte then high byte. -/
def int16sToBytes : List ℤ → List ℤ
  | [] => []
  | v :: rest => (v % 65536) % 256 :: (v % 65536) / 256 :: int16sToBytes rest

/-- Reinterpretation `new Int16Array(data.buffer)` (line 27): reinterpret a little-endian byte
list as signed 16-bit values (a trailing odd byte cannot occur for buffers
produced by the capture side, whose length is even). -/
def bytesToInt16s : List ℤ → List ℤ
  | b0 :: b1 :: rest => toInt16 (b0 + 256 * b1) :: bytesToInt16s rest
  | _ => []

/-- The result of `createBlob` (lines 40-50), with the payload kept as the byte
list that the source base64-encodes via `encode`. -/
structure EncodedBlob where
  data : List ℤ
  mimeType : String
  deriving Repr, DecidableEq

/-- Function `createBlob` (lines 40-50). -/
def createBlob (data : List ℚ) : EncodedBlob :=
  { data := int16sToBytes (createBlobInt16 data)
    mimeType := "audio/pcm;rate=16000" }

/-- Function `decodePCMAudioData` (lines 26-38) at its only call site (line 195), where
`numChannels = 1`: `channelData[i] = dataInt16[i] / 32768.0`. -/
def decodePCMAudioDataMono (bytes : List ℤ) : List ℚ :=
  (bytesToInt16s bytes).map fun v : ℤ => (v : ℚ) / 32768

/-- Capture-encode a float buffer, then playback-decode the resulting bytes:
the PCM round trip of the pipeline. -/
def pcmRoundTrip (data : List ℚ) : List ℚ :=
  decodePCMAudioDataMono (createBlob data).data

/-! #### Codec lemmas -/

theorem toInt16_eq_self {v : ℤ} (h1 : -32768 ≤ v) (h2 : v < 32768) :
    toInt16 v = v := by
  unfold toInt16
  split <;> omega

theorem toInt16_emod (n : ℤ) : toInt16 (n % 65536) = toInt16 n := by
  have h : n % 65536 % 65536 = n % 65536 := by omega
  unfold toInt16
  rw [h]

theorem toInt16_range (n : ℤ) : -32768 ≤ toInt16 n ∧ toInt16 n < 32768 := by
  unfold toInt16
  split <;> omega

theorem bytesToInt16s_int16sToBytes (l : List ℤ) :
    bytesToInt16s (int16sToBytes l) = l.map toInt16 := by
  induction l with
  | nil => rfl
  | cons v rest ih =>
      have hv : v % 65536 % 256 + 256 * (v % 65536 / 256) = v % 65536 := by omega
      simp only [int16sToBytes, bytesToInt16s, ih, hv, toInt16_emod, List.map_cons]

theorem toInt16_idem (n : ℤ) : toInt16 (toInt16 n) = toInt16 n :=
  toInt16_eq_self (toInt16_range n).1 (toInt16_range n).2

/-- Round trip at the sample level: encode then decode is
`toInt16 (jsTrunc (x * 32768)) / 32768`. -/
theorem pcmRoundTrip_eq_map (data : List ℚ) :
    pcmRoundTrip data =
      data.map fun x => ((toInt16 (jsTrunc (x * 32768)) : ℚ) / 32768) := by
  unfold pcmRoundTrip decodePCMAudioDataMono createBlob createBlobInt16
  rw [bytesToInt16s_int16sToBytes, List.map_map, List.map_map]
  apply List.map_congr_left
  intro x _
  simp only [Function.comp_apply, toInt16_idem]

theorem jsTrunc_abs_sub_le (q : ℚ) : |(jsTrunc q : ℚ) - q| ≤ 1 := by
  unfold jsTrunc
  split
  · rw [abs_le]
    constructor
    · have := Int.lt_floor_add_one q
      linarith
    · have := Int.floor_le q
      linarith
  · rw [abs_le]
    constructor
    · have := Int.le_ceil q
      linarith
    · have := Int.ceil_lt_add_one q
      linarith

theorem jsTrunc_range {q : ℚ} (h1 : (-32768 : ℚ) ≤ q) (h2 : q < 32768) :
    -32768 ≤ jsTrunc q ∧ jsTrunc q < 32768 := by
  unfold jsTrunc
  split
  case isTrue h =>
    refine ⟨?_, ?_⟩
    · have : (0 : ℤ) ≤ ⌊q⌋ := Int.floor_nonneg.mpr h
      omega
    · have : ⌊q⌋ < (32768 : ℤ) := Int.floor_lt.mpr (by exact_mod_cast h2)
      exact this
  case isFalse h =>
    push_neg at h
    refine ⟨?_, ?_⟩
    · have h3 : ((-32768 : ℤ) : ℚ) ≤ (⌈q⌉ : ℚ) :=
        le_trans (by exact_mod_cast h1) (Int.le_ceil q)
      exact_mod_cast h3
    · have : ⌈q⌉ ≤ (0 : ℤ) := Int.ceil_le.mpr (by exact_mod_cast h.le)
      omega

/-- Per-sample round-trip bound for samples in the half-open interval
`[-1, 1)`. -/
theorem pcmSample_roundTrip {x : ℚ} (h1 : -1 ≤ x) (h2 : x < 1) :
    |(toInt16 (jsTrunc (x * 32768)) : ℚ) / 32768 - x| ≤ 1 / 32768 := by
  set y : ℚ := x * 32768 with hy
  have hylo : (-32768 : ℚ) ≤ y := by nlinarith
  have hyhi : y < (32768 : ℚ) := by nlinarith
  obtain ⟨htlo, hthi⟩ := jsTrunc_range hylo hyhi
  have heq : toInt16 (jsTrunc y) = jsTrunc y := toInt16_eq_self htlo hthi
  rw [heq]
  have habs : |(jsTrunc y : ℚ) - y| ≤ 1 := jsTrunc_abs_sub_le y
  have hx : x = y / 32768 := by rw [hy]; ring
  rw [hx, div_sub_div_same, abs_div]
  have h32 : |(32768 : ℚ)| = 32768 := by norm_num
  rw [h32, div_le_div_iff₀ (by norm_num) (by norm_num)]
  nlinarith [habs]

/-! ### Playback scheduling (the audio branch of `onMessage`, lines 191-203)

The source keeps a ref `nextAudioStartTime` (the scheduled end of the last
segment).  For each incoming audio segment it executes

```
nextAudioStartTime = Math.max(nextAudioStartTime, outputCtx.currentTime)
source.start(nextAudioStartTime)
nextAudioStartTime += audioBuffer.duration
```

so the start offset is `max lastScheduledEnd clockNow` and the marker then
advances by the duration. -/

/-- One scheduling step: given the scheduled-end marker, the output clock's
current reading and the segment duration, return the start offset and the new
marker value. -/
def scheduleSegment (lastScheduledEnd clockNow dur : ℚ) : ℚ × ℚ :=
  (max lastScheduledEnd clockNow, max lastScheduledEnd clockNow + dur)

/-- Run the scheduling step over a whole sequence of segments, each given as a
pair (output-clock reading when it is scheduled, duration).  Returns the list
of (scheduled start offset, duration) pairs. -/
def scheduleAll (lastScheduledEnd : ℚ) : List (ℚ × ℚ) → List (ℚ × ℚ)
  | [] => []
  | (clockNow, dur) :: rest =>
      (max lastScheduledEnd clockNow, dur) ::
        scheduleAll (max lastScheduledEnd clockNow + dur) rest

theorem scheduleAll_head_ge (e : ℚ) (segs : List (ℚ × ℚ)) :
    ∀ x ∈ (scheduleAll e segs).head?, e ≤ x.1 := by
  cases segs with
  | nil => intro x hx; simp [scheduleAll] at hx
  | cons seg rest =>
      intro x hx
      obtain ⟨now, dur⟩ := seg
      simp only [scheduleAll, List.head?_cons, Option.mem_def, Option.some.injEq] at hx
      subst hx
      exact le_max_left _ _

theorem scheduleAll_chain' (e : ℚ) (segs : List (ℚ × ℚ)) :
    List.Chain' (fun a b : ℚ × ℚ => a.1 + a.2 ≤ b.1) (scheduleAll e segs) := by
  induction segs generalizing e with
  | nil => simp [scheduleAll]
  | cons seg rest ih =>
      obtain ⟨now, dur⟩ := seg
      rw [scheduleAll]
      refine List.chain'_cons'.mpr ⟨?_, ih _⟩
      intro b hb
      exact scheduleAll_head_ge _ rest b hb

/-! ### Controller state (the component's refs and state, lines 90-105) -/

/-- Type `SessionState` (line 83). -/
inductive SessionState
  | idle
  | fetchingContext
  | connecting
  | connected
  | error
  deriving Repr, DecidableEq

/-- The speaker tag of `TranscriptionEntry` (types.ts). -/
inductive Speaker
  | user
  | model
  deriving Repr, DecidableEq

/-- Record `TranscriptionEntry` (types.ts). -/
structure TranscriptionEntry where
  speaker : Speaker
  text : String
  deriving Repr, DecidableEq

/-- The component's mutable state: React state (lines 90-93) and refs (lines
95-105).  Resource-holding refs are modelled by a `Bool` recording whether the
ref currently holds a live resource; the set of scheduled output sources by the
number of its elements. -/
structure ControllerState where
  sessionState : SessionState
  transcriptionHistory : List TranscriptionEntry
  currentUserTranscription : String
  currentModelTranscription : String
  sessionPromiseOpen : Bool
  inputAudioCtx : Bool
  outputAudioCtx : Bool
  microphoneStream : Bool
  scriptProcessorNode : Bool
  sourceNode : Bool
  outputAudioSources : ℕ
  nextAudioStartTime : ℚ
  userTranscript : String
  modelTranscript : String
  deriving Repr, DecidableEq

/-- The externally visible teardown actions performed by `cleanup`
(lines 107-140), in the order the source initiates them. -/
inductive TeardownEffect
  | closeSession
  | disconnectScriptProcessor
  | disconnectSourceNode
  | stopMicTracks
  | closeInputCtx
  | closeOutputCtx
  | stopOutputSource
  deriving Repr, DecidableEq

/-- Function `cleanup` (lines 107-140): each guarded block releases one resource and is
recorded as an effect; then the source-set is cleared, `nextAudioStartTime`
reset, the state set to `'idle'` and the four transcript accumulators cleared.
Returns the new state and the ordered effect trace. -/
def cleanup (s : ControllerState) : ControllerState × List TeardownEffect :=
  let effs : List TeardownEffect :=
    (if s.sessionPromiseOpen then [TeardownEffect.closeSession] else []) ++
    (if s.scriptProcessorNode then [TeardownEffect.disconnectScriptProcessor] else []) ++
    (if s.sourceNode then [TeardownEffect.disconnectSourceNode] else []) ++
    (if s.microphoneStream then [TeardownEffect.stopMicTracks] else []) ++
    (if s.inputAudioCtx then [TeardownEffect.closeInputCtx] else []) ++
    (if s.outputAudioCtx then [TeardownEffect.closeOutputCtx] else []) ++
    List.replicate s.outputAudioSources TeardownEffect.stopOutputSource
  ({ s with
      sessionPromiseOpen := false
      scriptProcessorNode := false
      sourceNode := false
      microphoneStream := false
      inputAudioCtx := false
      outputAudioCtx := false
      outputAudioSources := 0
      nextAudioStartTime := 0
      sessionState := SessionState.idle
      userTranscript := ""
      modelTranscript := ""
      currentUserTranscription := ""
      currentModelTranscription := "" },
   effs)

/-- The `onerror` callback (lines 209-213): `setSessionState('error')` followed
by `cleanup()` — and `cleanup` itself ends with `setSessionState('idle')`, so
the later write wins. -/
def onErrorHandler (s : ControllerState) : ControllerState × List TeardownEffect :=
  cleanup { s with sessionState := SessionState.error }

/-- The `onclose` callback (lines 214-216): just `cleanup()`. -/
def onCloseHandler (s : ControllerState) : ControllerState × List TeardownEffect :=
  cleanup s

/-- Outcome of the synchronous prefix of `handleConnect` (lines 148-162).
`invalidStateRejected` is the outcome the specification describes (an
`InvalidState` failure surfaced to the caller); the source never produces it. -/
inductive StartResult
  | proceeded
  | silentNoOp
  | invalidStateRejected
  deriving Repr, DecidableEq

/-- The synchronous prefix of `handleConnect` (lines 148-154): the guard
`if (sessionState !== 'idle' && sessionState !== 'error') return;` is a bare
return; otherwise the history is cleared and the state set to
`'fetching_context'` before the first await. -/
def handleConnectBegin (s : ControllerState) : ControllerState × StartResult :=
  if s.sessionState ≠ SessionState.idle ∧ s.sessionState ≠ SessionState.error then
    (s, StartResult.silentNoOp)
  else
    ({ s with
        transcriptionHistory := []
        sessionState := SessionState.fetchingContext },
     StartResult.proceeded)

/-! ### Server messages and the `onMessage` callback (lines 166-204) -/

/-- Inline-data member of a content part; its `data` field (the base64 audio
payload, carried here as the decoded byte list) is itself optional. -/
structure InlineData where
  data : Option (List ℤ)
  deriving Repr, DecidableEq

/-- One element of `modelTurn.parts`; `inlineData` is optional. -/
structure ContentPart where
  inlineData : Option InlineData
  deriving Repr, DecidableEq

/-- Model-turn content; in the transport's type the `parts` array is itself
optional. -/
structure ModelTurn where
  parts : Option (List ContentPart)
  deriving Repr, DecidableEq

/-- Fields of `message.serverContent` read by `onMessage`.  The transcription
fields carry the `.text` of the corresponding transcription object when that
object is present. -/
structure ServerContent where
  outputTranscription : Option String
  inputTranscription : Option String
  turnComplete : Bool
  modelTurn : Option ModelTurn
  deriving Repr, DecidableEq

/-- An incoming `LiveServerMessage` as far as `onMessage` inspects it. -/
structure LiveServerMessage where
  serverContent : Option ServerContent
  deriving Repr, DecidableEq

/-- Runtime errors the message handler can raise. -/
inductive JsError
  | typeError
  deriving Repr, DecidableEq

/-- Transcription accumulation (lines 167-175): an `if / else if` chain, so at
most one of the two buffers grows per message; the matching display state is
set to the updated buffer. -/
def applyTranscription (s : ControllerState) (m : LiveServerMessage) : ControllerState :=
  match m.serverContent with
  | none => s
  | some sc =>
      match sc.outputTranscription with
      | some text =>
          { s with
              modelTranscript := s.modelTranscript ++ text
              currentModelTranscription := s.modelTranscript ++ text }
      | none =>
          match sc.inputTranscription with
          | some text =>
              { s with
                  userTranscript := s.userTranscript ++ text
                  currentUserTranscription := s.userTranscript ++ text }
          | none => s

/-- Turn-completion handling (lines 177-189): when `turnComplete` is set, the
current user and model buffers are appended to the history — unconditionally,
user first then model, whether or not either buffer is empty — and all four
accumulators are cleared. -/
def applyTurnComplete (s : ControllerState) (m : LiveServerMessage) : ControllerState :=
  match m.serverContent with
  | none => s
  | some sc =>
      if sc.turnComplete then
        { s with
            transcriptionHistory :=
              s.transcriptionHistory ++
                [{ speaker := Speaker.user, text := s.userTranscript },
                 { speaker := Speaker.model, text := s.modelTranscript }]
            userTranscript := ""
            modelTranscript := ""
            currentUserTranscription := ""
            currentModelTranscription := "" }
      else s

/-- Evaluation of `message.serverContent?.modelTurn?.parts[0]?.inlineData.data`
(line 191) under JavaScript optional-chaining semantics: a missing
`serverContent` or `modelTurn` short-circuits to `undefined`, as does
`parts[0]?.` when the parts list is empty; but a missing `parts` array makes
the index access throw, and a first part without `inlineData` makes the
unguarded `.data` access throw a TypeError. -/
def extractAudioData (m : LiveServerMessage) : Except JsError (Option (List ℤ)) :=
  match m.serverContent with
  | none => Except.ok none
  | some sc =>
      match sc.modelTurn with
      | none => Except.ok none
      | some mt =>
          match mt.parts with
          | none => Except.error JsError.typeError
          | some ps =>
              match ps.head? with
              | none => Except.ok none
              | some p =>
                  match p.inlineData with
                  | none => Except.error JsError.typeError
                  | some idata => Except.ok idata.data

/-- Audio scheduling of one decoded segment (lines 193-202): the buffer's
duration is its frame count over the 24 kHz output rate, the start offset and
new `nextAudioStartTime` come from `scheduleSegment`, and the new source joins
the output-source set. -/
def scheduleAudio (s : ControllerState) (clockNow : ℚ) (bytes : List ℤ) : ControllerState :=
  let audioBuffer := decodePCMAudioDataMono bytes
  let dur : ℚ := (audioBuffer.length : ℚ) / 24000
  let sched := scheduleSegment s.nextAudioStartTime clockNow dur
  { s with
      nextAudioStartTime := sched.2
      outputAudioSources := s.outputAudioSources + 1 }

/-- The `onmessage` callback (lines 166-204): transcription accumulation, then
turn completion, then the audio branch.  The transcript effects precede the
audio-data access, so they persist even when that access throws; the audio is
scheduled only when the extracted payload is a non-empty string and the output
context is live (`if (audioData && outputAudioContextRef.current)`). -/
def onMessageStep (s : ControllerState) (clockNow : ℚ) (m : LiveServerMessage) :
    ControllerState × Option JsError :=
  let s2 := applyTurnComplete (applyTranscription s m) m
  match extractAudioData m with
  | Except.error e => (s2, some e)
  | Except.ok none => (s2, none)
  | Except.ok (some bytes) =>
      if bytes.isEmpty || !s2.outputAudioCtx then (s2, none)
      else (scheduleAudio s2 clockNow bytes, none)

/-! ### Persona instruction resolution (`handleConnect`, lines 154-160;
persona data from `constants.tsx`; context lookup from `fetchContextFromR2`,
lines 58-79) -/

/-- Instruction template of the `language_tutor` persona (constants.tsx),
byte-for-byte as in the source (apostrophes written `\x27`; the two bytes
after "Pozna" reproduced as they appear in the file). -/
def languageTutorInstruction : String :=
  "You are a friendly and patient language tutor. Your goal is to help the user learn {language}. Engage them in conversation, correct their mistakes gently, explain grammar, and introduce new vocabulary related to the conversation. Always respond primarily in {language} unless the user asks for an explanation in English. \n    \nIf the user chooses to learn Polish, you should also teach them a few words from the local Pozna≈Ñ slang, such as \x27pyry\x27 (potatoes), \x27tej\x27 (a common filler word, like \x27hey\x27 or \x27you know\x27), \x27wiara\x27 (a group of people/friends), or \x27bimba\x27 (a tram). Introduce these naturally into the conversation."

/-- Function `fetchContextFromR2` (lines 58-79) with the simulated network
delay dropped: a switch on the agent id returning the contextual string, empty
for agents without specific context. -/
def fetchContextFromR2 (agentId : String) : String :=
  if agentId = "blog_writer" then
    "\n- Recent Blog Post Title: \"The Future of AI in Web Development\"\n- Upcoming Topic Idea: \"Exploring Gemini 2.5 Pro\x27s Advanced Features\"\n- User\x27s preferred tone: Casual and informative.\n            "
  else if agentId = "language_tutor" then
    "\n- User\x27s last session focus: Practicing past tense verbs in Spanish.\n- Common mistake: Confusing \x27por\x27 and \x27para\x27.\n- Next learning goal: Introduce subjunctive mood.\n            "
  else
    ""

/-- Resolution of the system instruction (lines 156-158): the R2 context is
appended under a separator when non-empty (JavaScript string truthiness),
otherwise the persona instruction is passed through unchanged.  No placeholder
substitution of any kind is performed on this path. -/
def finalSystemInstruction (systemInstruction r2Context : String) : String :=
  if r2Context = "" then systemInstruction
  else systemInstruction ++ "\n\n--- Additional Context from R2 ---\n" ++ r2Context

/-- Decides whether `hay` starts with `needle` (on character lists). -/
def listStartsWith : List Char → List Char → Bool
  | [], _ => true
  | _ :: _, [] => false
  | a :: as, b :: bs => a == b && listStartsWith as bs

/-- Decides whether `needle` occurs contiguously inside `hay`. -/
def listHasSub (needle : List Char) : List Char → Bool
  | [] => listStartsWith needle []
  | c :: cs => listStartsWith needle (c :: cs) || listHasSub needle cs

/-- Decides whether the string `hay` contains `needle` as a substring. -/
def containsToken (hay needle : String) : Bool :=
  listHasSub needle.data hay.data

theorem listStartsWith_append {needle hay : List Char} (u : List Char)
    (h : listStartsWith needle hay = true) :
    listStartsWith needle (hay ++ u) = true := by
  induction needle generalizing hay with
  | nil => rfl
  | cons a as ih =>
      cases hay with
      | nil => simp [listStartsWith] at h
      | cons b bs =>
          rw [List.cons_append]
          simp only [listStartsWith, Bool.and_eq_true] at h ⊢
          exact ⟨h.1, ih h.2⟩

theorem listHasSub_append_right {needle hay : List Char} (u : List Char)
    (h : listHasSub needle hay = true) :
    listHasSub needle (hay ++ u) = true := by
  induction hay with
  | nil =>
      cases needle with
      | nil => cases u <;> simp [listHasSub, listStartsWith]
      | cons a as => simp [listHasSub, listStartsWith] at h
  | cons c cs ih =>
      rw [List.cons_append]
      simp only [listHasSub, Bool.or_eq_true] at h ⊢
      cases h with
      | inl h => exact Or.inl (listStartsWith_append u h)
      | inr h => exact Or.inr (ih h)

theorem string_data_append (a b : String) : (a ++ b).data = a.data ++ b.data := rfl

theorem containsToken_append_left {a : String} (b needle : String)
    (h : containsToken a needle = true) :
    containsToken (a ++ b) needle = true := by
  unfold containsToken at h ⊢
  rw [string_data_append]
  exact listHasSub_append_right _ h

/-! ## Claims -/

/-- Claim C1 (confirmed): the playback path computes each segment's start
offset as the maximum of the output clock's current time and the previously
scheduled end, schedules at that offset, and advances the scheduled-end marker
by the segment's duration (`scheduleAll` iterating `onMessage`'s audio branch);
consequently, for every sequence of enqueued segments, the scheduled start time
of segment `i+1` is at least the computed end time (start plus duration) of
segment `i` — no overlap. -/
theorem claim_C1_no_overlap (e : ℚ) (segs : List (ℚ × ℚ)) (i : ℕ)
    (h : i + 1 < (scheduleAll e segs).length) :
    ((scheduleAll e segs).get ⟨i, by omega⟩).1 +
        ((scheduleAll e segs).get ⟨i, by omega⟩).2 ≤
      ((scheduleAll e segs).get ⟨i + 1, h⟩).1 :=
  List.chain'_iff_get.mp (scheduleAll_chain' e segs) i (by omega)

/-- Witness for C1: marker 0, a segment of duration 1 scheduled at clock 0,
then a segment of duration 2 arriving at clock 5. -/
theorem claim_C1_no_overlap_witness :
    0 + 1 < (scheduleAll 0 [(0, 1), (5, 2)]).length ∧
      ((scheduleAll 0 [(0, 1), (5, 2)]).get ⟨0, by decide⟩).1 +
          ((scheduleAll 0 [(0, 1), (5, 2)]).get ⟨0, by decide⟩).2 ≤
        ((scheduleAll 0 [(0, 1), (5, 2)]).get ⟨1, by decide⟩).1 :=
  ⟨by decide, claim_C1_no_overlap 0 [(0, 1), (5, 2)] 0 (by decide)⟩

theorem jsTrunc_intCast (n : ℤ) : jsTrunc (n : ℚ) = n := by
  unfold jsTrunc
  split
  · exact Int.floor_intCast n
  · exact Int.ceil_intCast n

/-- Counterexample to claim C2 as stated (over the closed interval [-1, 1]):
the in-range sample 1 is scaled to 32768, wraps to -32768 in the Int16 store,
and decodes to -1 — a round-trip error of 2, not within 1/32768. -/
theorem claim_C2_counterexample :
    pcmRoundTrip [(1 : ℚ)] = [-1] ∧ ¬ |(-1 : ℚ) - 1| ≤ 1 / 32768 := by
  constructor
  · rw [pcmRoundTrip_eq_map, List.map_cons, List.map_nil,
      show (1 : ℚ) * 32768 = ((32768 : ℤ) : ℚ) by norm_num, jsTrunc_intCast,
      show toInt16 32768 = -32768 by decide]
    norm_num
  · rw [show |(-1 : ℚ) - 1| = 2 by rw [abs_of_nonpos] <;> norm_num]
    norm_num

theorem forall₂_pcmRoundTrip_aux :
    ∀ data : List ℚ, (∀ x ∈ data, -1 ≤ x ∧ x < 1) →
      List.Forall₂ (fun r x : ℚ => |r - x| ≤ 1 / 32768)
        (data.map fun x => ((toInt16 (jsTrunc (x * 32768)) : ℚ) / 32768)) data
  | [], _ => List.Forall₂.nil
  | a :: l, h =>
      List.Forall₂.cons
        (pcmSample_roundTrip (h a (by simp)).1 (h a (by simp)).2)
        (forall₂_pcmRoundTrip_aux l fun x hx => h x (by simp [hx]))

/-- Claim C2 amended (the sample range is the half-open interval [-1, 1), not
the closed interval: the single point 1 wraps): converting a buffer to 16-bit
signed PCM via the capture encoder and back via the playback decoder yields,
for every sample, a value within 1/32768 of the original. -/
theorem claim_C2_roundtrip_amended (data : List ℚ)
    (h : ∀ x ∈ data, -1 ≤ x ∧ x < 1) :
    List.Forall₂ (fun r x : ℚ => |r - x| ≤ 1 / 32768) (pcmRoundTrip data) data := by
  rw [pcmRoundTrip_eq_map]
  exact forall₂_pcmRoundTrip_aux data h

theorem pcmWitnessBuffer_mem :
    ∀ x ∈ [(1 : ℚ) / 2, -(1 : ℚ) / 2, 0], -1 ≤ x ∧ x < 1 := by
  intro x hx
  simp only [List.mem_cons, List.not_mem_nil, or_false] at hx
  rcases hx with rfl | rfl | rfl <;> norm_num

/-- Witness for the amended C2 on the buffer [1/2, -1/2, 0]. -/
theorem claim_C2_roundtrip_amended_witness :
    (∀ x ∈ [(1 : ℚ) / 2, -(1 : ℚ) / 2, 0], -1 ≤ x ∧ x < 1) ∧
      List.Forall₂ (fun r x : ℚ => |r - x| ≤ 1 / 32768)
        (pcmRoundTrip [(1 : ℚ) / 2, -(1 : ℚ) / 2, 0]) [(1 : ℚ) / 2, -(1 : ℚ) / 2, 0] :=
  ⟨pcmWitnessBuffer_mem,
   claim_C2_roundtrip_amended [(1 : ℚ) / 2, -(1 : ℚ) / 2, 0] pcmWitnessBuffer_mem⟩

/-- Claim C3 (code-bug evaluation): the capture conversion performs no
clamping.  The sample 1.5 (≥ 1) produces -16384 — a negative value, not the
maximum positive 32767 — the sample -1.5 (≤ -1) produces +16384, not the
minimum -32768, and the sample 2 produces 0: values outside [-1, 1] wrap. -/
theorem claim_C3_wraparound_eval :
    createBlobInt16 [(3 : ℚ) / 2, -(3 : ℚ) / 2, 2] = [-16384, 16384, 0] ∧
      (-16384 : ℤ) < 0 ∧ (-16384 : ℤ) ≠ 32767 ∧
      (0 : ℤ) < 16384 ∧ (16384 : ℤ) ≠ -32768 := by
  refine ⟨?_, by decide⟩
  unfold createBlobInt16
  rw [List.map_cons, List.map_cons, List.map_cons, List.map_nil,
    show (3 : ℚ) / 2 * 32768 = ((49152 : ℤ) : ℚ) by norm_num,
    show -(3 : ℚ) / 2 * 32768 = ((-49152 : ℤ) : ℚ) by norm_num,
    show (2 : ℚ) * 32768 = ((65536 : ℤ) : ℚ) by norm_num,
    jsTrunc_intCast, jsTrunc_intCast, jsTrunc_intCast]
  decide

/-- A fully resourced mid-session state: connected, with a live transport
handle, audio graph, microphone and both contexts, two scheduled output
sources, a nonzero scheduling marker and accumulated partial transcripts. -/
def connectedState : ControllerState :=
  { sessionState := SessionState.connected
    transcriptionHistory := []
    currentUserTranscription := "hel"
    currentModelTranscription := "ok"
    sessionPromiseOpen := true
    inputAudioCtx := true
    outputAudioCtx := true
    microphoneStream := true
    scriptProcessorNode := true
    sourceNode := true
    outputAudioSources := 2
    nextAudioStartTime := 7
    userTranscript := "hel"
    modelTranscript := "ok" }

/-- Claim C4 (code-bug evaluation): on a transport Error event while Connected
the handler performs exactly the teardown of `stop()` (state and trace both
identical to `cleanup`'s), but the resulting session state is Idle, not Error:
`onerror` writes `'error'` and then calls `cleanup`, whose final
`setSessionState('idle')` overwrites it, so the claimed Error state never
survives.  For a Closed event the same teardown runs and the state is Idle, as
claimed. -/
theorem claim_C4_error_state_eval :
    (onErrorHandler connectedState).1.sessionState = SessionState.idle ∧
      SessionState.idle ≠ SessionState.error ∧
      (onErrorHandler connectedState).1 = (cleanup connectedState).1 ∧
      (onErrorHandler connectedState).2 = (cleanup connectedState).2 ∧
      (onCloseHandler connectedState).1.sessionState = SessionState.idle ∧
      (onCloseHandler connectedState).2 = (cleanup connectedState).2 :=
  ⟨rfl, by decide, rfl, rfl, rfl, rfl⟩

/-- Claim C5 (confirmed): `stop()` (the `cleanup` callback) is total and
idempotent: from any state it leaves the session Idle, releases the
microphone, transport handle, audio graph and contexts, stops all scheduled
playback, resets the scheduling marker and clears both accumulated partial
transcripts (and their display copies); a second consecutive call changes
nothing and performs no further teardown effects. -/
theorem claim_C5_stop_idempotent (s : ControllerState) :
    (cleanup s).1.sessionState = SessionState.idle ∧
      (cleanup s).1.sessionPromiseOpen = false ∧
      (cleanup s).1.scriptProcessorNode = false ∧
      (cleanup s).1.sourceNode = false ∧
      (cleanup s).1.microphoneStream = false ∧
      (cleanup s).1.inputAudioCtx = false ∧
      (cleanup s).1.outputAudioCtx = false ∧
      (cleanup s).1.outputAudioSources = 0 ∧
      (cleanup s).1.nextAudioStartTime = 0 ∧
      (cleanup s).1.userTranscript = "" ∧
      (cleanup s).1.modelTranscript = "" ∧
      (cleanup s).1.currentUserTranscription = "" ∧
      (cleanup s).1.currentModelTranscription = "" ∧
      cleanup ((cleanup s).1) = ((cleanup s).1, []) :=
  ⟨rfl, rfl, rfl, rfl, rfl, rfl, rfl, rfl, rfl, rfl, rfl, rfl, rfl, rfl⟩

/-- Counterexample to claim C6 as stated: calling `handleConnect` while
Connected produces the bare-return silent no-op — no InvalidState rejection is
surfaced to the caller — though the state is indeed untouched. -/
theorem claim_C6_counterexample :
    handleConnectBegin connectedState = (connectedState, StartResult.silentNoOp) ∧
      StartResult.silentNoOp ≠ StartResult.invalidStateRejected :=
  ⟨rfl, by decide⟩

/-- Claim C6 amended: calling `start()` while the state is neither Idle nor
Error is a silent no-op — the guard returns immediately, no error of any kind
is surfaced, no state transition occurs, and the existing session (all
resources and transcripts in the state) is untouched. -/
theorem claim_C6_silent_noop_amended (s : ControllerState)
    (h1 : s.sessionState ≠ SessionState.idle)
    (h2 : s.sessionState ≠ SessionState.error) :
    handleConnectBegin s = (s, StartResult.silentNoOp) := by
  unfold handleConnectBegin
  rw [if_pos ⟨h1, h2⟩]

/-- Witness for the amended C6 at the connected state. -/
theorem claim_C6_silent_noop_amended_witness :
    connectedState.sessionState ≠ SessionState.idle ∧
      connectedState.sessionState ≠ SessionState.error ∧
      handleConnectBegin connectedState = (connectedState, StartResult.silentNoOp) :=
  ⟨by decide, by decide,
   claim_C6_silent_noop_amended connectedState (by decide) (by decide)⟩

/-- A turn-complete server message carrying no transcription delta and no
model turn. -/
def turnCompleteMsg : LiveServerMessage :=
  { serverContent := some
      { outputTranscription := none
        inputTranscription := none
        turnComplete := true
        modelTurn := none } }

/-- A mid-session state whose user buffer is empty while the model buffer
holds "hi". -/
def emptyUserBufferState : ControllerState :=
  { connectedState with
      transcriptionHistory := []
      userTranscript := ""
      modelTranscript := "hi" }

/-- Counterexample to claim C7 as stated: on turn completion with an empty
user buffer and model buffer "hi", the handler appends an entry for the empty
user buffer too — the history becomes {user, ""} then {model, "hi"}, not only
the single entry for the non-empty buffer. -/
theorem claim_C7_counterexample :
    (onMessageStep emptyUserBufferState 0 turnCompleteMsg).1.transcriptionHistory =
        [{ speaker := Speaker.user, text := "" },
         { speaker := Speaker.model, text := "hi" }] ∧
      (onMessageStep emptyUserBufferState 0 turnCompleteMsg).1.transcriptionHistory ≠
        [{ speaker := Speaker.model, text := "hi" }] :=
  ⟨rfl, by decide⟩

/-- Claim C7 amended: on each turn-complete event the reconciler appends
exactly one TranscriptEntry per speaker — user first, then model — for both
buffers unconditionally, whether or not either buffer is empty, then clears
both buffers and both display strings; in particular with buffers "hello" and
"hi there" it yields exactly {user,"hello"} then {model,"hi there"} and both
buffers are empty afterward. -/
theorem claim_C7_turn_complete_amended (s : ControllerState) (now : ℚ) :
    (onMessageStep s now turnCompleteMsg).2 = none ∧
      (onMessageStep s now turnCompleteMsg).1.transcriptionHistory =
        s.transcriptionHistory ++
          [{ speaker := Speaker.user, text := s.userTranscript },
           { speaker := Speaker.model, text := s.modelTranscript }] ∧
      (onMessageStep s now turnCompleteMsg).1.userTranscript = "" ∧
      (onMessageStep s now turnCompleteMsg).1.modelTranscript = "" ∧
      (onMessageStep s now turnCompleteMsg).1.currentUserTranscription = "" ∧
      (onMessageStep s now turnCompleteMsg).1.currentModelTranscription = "" :=
  ⟨rfl, rfl, rfl, rfl, rfl, rfl⟩

/-- Counterexample to claim C8 as stated: in the teardown trace of the fully
resourced session the very first initiated effect is closing the transport
handle, and the microphone release only comes later — so outgoing capture is
not stopped before the transport handle is closed. -/
theorem claim_C8_counterexample :
    (cleanup connectedState).2 =
        [TeardownEffect.closeSession, TeardownEffect.disconnectScriptProcessor,
         TeardownEffect.disconnectSourceNode, TeardownEffect.stopMicTracks,
         TeardownEffect.closeInputCtx, TeardownEffect.closeOutputCtx,
         TeardownEffect.stopOutputSource, TeardownEffect.stopOutputSource] ∧
      (cleanup connectedState).2.head? = some TeardownEffect.closeSession ∧
      TeardownEffect.closeSession ≠ TeardownEffect.stopMicTracks ∧
      TeardownEffect.stopMicTracks ∈ (cleanup connectedState).2.tail :=
  ⟨rfl, rfl, by decide, by decide⟩

/-- Claim C8 amended: teardown initiates its side effects in the source's
program order — first the transport-handle close, then the capture teardown
(script processor disconnect, source-node disconnect, microphone-track stop,
input-context close), then the release of audio output resources
(output-context close and a stop per scheduled source). -/
theorem claim_C8_teardown_order_amended (s : ControllerState)
    (h1 : s.sessionPromiseOpen = true) (h2 : s.scriptProcessorNode = true)
    (h3 : s.sourceNode = true) (h4 : s.microphoneStream = true)
    (h5 : s.inputAudioCtx = true) (h6 : s.outputAudioCtx = true) :
    (cleanup s).2 =
      [TeardownEffect.closeSession, TeardownEffect.disconnectScriptProcessor,
       TeardownEffect.disconnectSourceNode, TeardownEffect.stopMicTracks,
       TeardownEffect.closeInputCtx, TeardownEffect.closeOutputCtx] ++
        List.replicate s.outputAudioSources TeardownEffect.stopOutputSource := by
  simp [cleanup, h1, h2, h3, h4, h5, h6]

/-- Witness for the amended C8 at the connected state. -/
theorem claim_C8_teardown_order_amended_witness :
    (connectedState.sessionPromiseOpen = true ∧
        connectedState.scriptProcessorNode = true ∧
        connectedState.sourceNode = true ∧
        connectedState.microphoneStream = true ∧
        connectedState.inputAudioCtx = true ∧
        connectedState.outputAudioCtx = true) ∧
      (cleanup connectedState).2 =
        [TeardownEffect.closeSession, TeardownEffect.disconnectScriptProcessor,
         TeardownEffect.disconnectSourceNode, TeardownEffect.stopMicTracks,
         TeardownEffect.closeInputCtx, TeardownEffect.closeOutputCtx] ++
          List.replicate connectedState.outputAudioSources TeardownEffect.stopOutputSource :=
  ⟨⟨rfl, rfl, rfl, rfl, rfl, rfl⟩,
   claim_C8_teardown_order_amended connectedState rfl rfl rfl rfl rfl rfl⟩

/-- Counterexample to claim C9 as stated: for the language-tutor persona the
instruction resolved by the live path and passed to `connect` still contains
the placeholder token, because `handleConnect` only appends the R2 context and
performs no substitution. -/
theorem claim_C9_counterexample :
    containsToken
        (finalSystemInstruction languageTutorInstruction
          (fetchContextFromR2 "language_tutor"))
        "{language}" = true := by
  rfl

/-- Claim C9 amended: the live path performs no placeholder substitution — the
resolved instruction is the persona template passed through verbatim (with the
R2 context appended when non-empty), so every placeholder token contained in
the template, such as the tutor's, remains in the instruction handed to
`connect`. -/
theorem claim_C9_placeholder_amended (instr r2 : String)
    (h : containsToken instr "{language}" = true) :
    containsToken (finalSystemInstruction instr r2) "{language}" = true := by
  unfold finalSystemInstruction
  split
  · exact h
  · exact containsToken_append_left _ _ (containsToken_append_left _ _ h)

/-- Witness for the amended C9: the tutor template contains the placeholder,
and so does the resolved instruction. -/
theorem claim_C9_placeholder_amended_witness :
    containsToken languageTutorInstruction "{language}" = true ∧
      containsToken
        (finalSystemInstruction languageTutorInstruction
          (fetchContextFromR2 "language_tutor"))
        "{language}" = true :=
  ⟨by rfl,
   claim_C9_placeholder_amended languageTutorInstruction
     (fetchContextFromR2 "language_tutor") (by rfl)⟩

/-- A server message with no `serverContent` at all. -/
def noContentMsg : LiveServerMessage := { serverContent := none }

/-- A server message whose model turn has one part that carries no
`inlineData`. -/
def missingInlineDataMsg : LiveServerMessage :=
  { serverContent := some
      { outputTranscription := none
        inputTranscription := none
        turnComplete := false
        modelTurn := some { parts := some [{ inlineData := none }] } } }

/-- Claim C10 (confirmed): the audio-scheduling step is not total.  Messages
with no `serverContent`, no `modelTurn`, or an empty parts list schedule no
audio and are otherwise processed normally (the result is exactly the
transcription and turn-complete processing, with no error); but for any
message whose model turn has a first part lacking `inlineData`, the unguarded
`parts[0]?.inlineData.data` access throws a TypeError (the transcript effects
having already been applied). -/
theorem claim_C10_audio_not_total (s : ControllerState) (now : ℚ)
    (m : LiveServerMessage) :
    ((m.serverContent = none ∨
        (∃ sc, m.serverContent = some sc ∧ sc.modelTurn = none) ∨
        (∃ sc mt, m.serverContent = some sc ∧ sc.modelTurn = some mt ∧
          mt.parts = some [])) →
      onMessageStep s now m =
        (applyTurnComplete (applyTranscription s m) m, none)) ∧
    ((∃ sc mt p ps, m.serverContent = some sc ∧ sc.modelTurn = some mt ∧
        mt.parts = some (p :: ps) ∧ p.inlineData = none) →
      onMessageStep s now m =
        (applyTurnComplete (applyTranscription s m) m, some JsError.typeError)) := by
  obtain ⟨msc⟩ := m
  constructor
  · rintro (h | ⟨sc, h1, h2⟩ | ⟨sc, mt, h1, h2, h3⟩)
    · simp only at h
      subst h
      rfl
    · simp only at h1
      subst h1
      obtain ⟨o, i, t, mturn⟩ := sc
      simp only at h2
      subst h2
      rfl
    · simp only at h1
      subst h1
      obtain ⟨o, i, t, mturn⟩ := sc
      simp only at h2
      subst h2
      obtain ⟨pts⟩ := mt
      simp only at h3
      subst h3
      rfl
  · rintro ⟨sc, mt, p, ps, h1, h2, h3, h4⟩
    simp only at h1
    subst h1
    obtain ⟨o, i, t, mturn⟩ := sc
    simp only at h2
    subst h2
    obtain ⟨pts⟩ := mt
    simp only at h3
    subst h3
    obtain ⟨pid⟩ := p
    simp only at h4
    subst h4
    rfl

/-- Witness for C10: a message with no content is processed without audio and
without error, and the missing-inlineData message throws the TypeError. -/
theorem claim_C10_audio_not_total_witness :
    onMessageStep connectedState 0 noContentMsg =
        (applyTurnComplete (applyTranscription connectedState noContentMsg)
          noContentMsg, none) ∧
      onMessageStep connectedState 0 missingInlineDataMsg =
        (applyTurnComplete (applyTranscription connectedState missingInlineDataMsg)
          missingInlineDataMsg, some JsError.typeError) :=
  ⟨(claim_C10_audio_not_total connectedState 0 noContentMsg).1 (Or.inl rfl),
   (claim_C10_audio_not_total connectedState 0 missingInlineDataMsg).2
     ⟨_, _, _, _, rfl, rfl, rfl, rfl⟩⟩

end LiveChat
